import Mathlib

/-
Verification of the VibeCAD Onshape MCP server against its design document.

Shallow embedding: the TypeScript sources (src/src/server.ts and the unnamed
transport module exporting onshapeApiRequest / getDefaultWorkspace /
findPartStudioByName / findAssemblyByName) are translated into Lean
definitions.  Dynamically-typed JSON values become the `Json` inductive or
structures of `Option String` fields (a missing/undefined field is `none`);
JavaScript exceptions become `Except Err`; the network is an explicit oracle
(`Backend` or an `Except Err _` request result) supplied per invocation, and
every outbound request a handler issues is recorded in an explicit `Call`
trace.  JavaScript runtime primitives that the handlers merely pass strings
through (JSON.stringify) are parameters, bundled in `JsPrims`.
-/

namespace VibeCAD

/-- JSON values, modelling the untyped payloads the server passes through
(the feature definitions are deliberately unvalidated "pass-through" JSON). -/
inductive Json where
  | null : Json
  | bool (b : Bool) : Json
  | num (n : Int) : Json
  | str (s : String) : Json
  | arr (xs : List Json) : Json
  | obj (fields : List (String × Json)) : Json

/-- Failures that can be thrown inside a handler: the transport's ApiError
(the `Onshape API Error: status statusText - body` throw in
`onshapeApiRequest`), the precondition throw of the mutation handlers
(`Failed to fetch necessary Part Studio metadata ...`), a JSON.parse
failure, or any other runtime error. -/
inductive Err where
  | apiError (status : Nat) (statusText : String) (rawBody : String)
  | preconditionError (msg : String)
  | parseError (msg : String)
  | otherError (msg : String)

/-- The `error.message` string the catch blocks interpolate into their
in-band error texts. -/
def Err.message : Err → String
  | .apiError status statusText rawBody =>
      "Onshape API Error: " ++ toString status ++ " " ++ statusText ++ " - " ++ rawBody
  | .preconditionError msg => msg
  | .parseError msg => msg
  | .otherError msg => msg

/-- One HTTP response as observed by the transport client (node-fetch
`Response`): the `ok` flag, numeric status, status text, and the body text. -/
structure HttpResponse where
  ok : Bool
  status : Nat
  statusText : String
  body : String

/-- `onshapeApiRequest` (unnamed transport module, lines 15-49), modelled over
the observed HTTP response.  `jsonParse` stands for the runtime JSON.parse
primitive (a parse failure is re-thrown unchanged).  A non-ok response throws
the ApiError carrying status, statusText and the raw body text; a successful
response with an empty body returns `{}` without ever invoking the parser;
a successful non-empty body is handed to JSON.parse. -/
def onshapeApiRequest (jsonParse : String → Except Err Json)
    (resp : HttpResponse) : Except Err Json :=
  if resp.ok then
    if resp.body = "" then .ok (.obj []) else jsonParse resp.body
  else
    .error (.apiError resp.status resp.statusText resp.body)

/-- JavaScript property access `j.key` on a parsed JSON value: `none` models
`undefined` (absent key, or access on a non-object). -/
def Json.getField : Json → String → Option Json
  | .obj fields, key => List.lookup key fields
  | _, _ => none

/-- `getDefaultWorkspace` (transport module, lines 52-60) over the result of
its single API request: any failure is caught and `undefined` (`none`) is
returned; otherwise `docInfo.defaultWorkspace?.id`. -/
def getDefaultWorkspace (requestResult : Except Err Json) : Option Json :=
  match requestResult with
  | .error _ => none
  | .ok docInfo =>
      (docInfo.getField "defaultWorkspace").bind (fun ws => ws.getField "id")

/-- The `elements.find(elem => elem.name === name)` step shared by the two
find helpers; a non-array response makes `.find` throw in JS, which the
enclosing catch turns into `undefined`, hence `none` here as well. -/
def jsFindByName (elements : Json) (name : String) : Option Json :=
  match elements with
  | .arr items =>
      items.find? (fun e =>
        match e.getField "name" with
        | some (.str s) => s == name
        | _ => false)
  | _ => none

/-- `findPartStudioByName` (transport module, lines 63-79): issues one
elements query (elementType=PARTSTUDIO); any failure is caught and `none`
returned. -/
def findPartStudioByName (requestResult : Except Err Json) (name : String) :
    Option Json :=
  match requestResult with
  | .error _ => none
  | .ok elements => jsFindByName elements name

/-- `findAssemblyByName` (transport module, lines 82-98): identical
post-processing to `findPartStudioByName` (the query differs:
elementType=ASSEMBLY). -/
def findAssemblyByName (requestResult : Except Err Json) (name : String) :
    Option Json :=
  match requestResult with
  | .error _ => none
  | .ok elements => jsFindByName elements name

/-- C8: for every call to the transport's execute operation, a non-success
backend response fails with an ApiError carrying the status, status text and
raw body; a successful response with an empty body returns the empty
structured result `{}` without consulting the parser (so it is distinct from
any parse failure); and a successful response with a non-empty body returns
exactly what JSON.parse returns on the body. -/
theorem onshapeApiRequest_spec (jsonParse : String → Except Err Json)
    (resp : HttpResponse) :
    (resp.ok = false →
      onshapeApiRequest jsonParse resp =
        .error (.apiError resp.status resp.statusText resp.body)) ∧
    (resp.ok = true → resp.body = "" →
      onshapeApiRequest jsonParse resp = .ok (.obj [])) ∧
    (resp.ok = true → resp.body ≠ "" →
      onshapeApiRequest jsonParse resp = jsonParse resp.body) := by
  refine ⟨fun hok => ?_, fun hok hb => ?_, fun hok hb => ?_⟩
  · simp [onshapeApiRequest, hok]
  · simp [onshapeApiRequest, hok, hb]
  · simp [onshapeApiRequest, hok, hb]

/-- Witness for C8: concrete evaluations of all three branches. -/
theorem onshapeApiRequest_spec_witness :
    onshapeApiRequest (fun _ => .ok (.num 5))
        { ok := false, status := 404, statusText := "Not Found", body := "gone" } =
      .error (.apiError 404 "Not Found" "gone") ∧
    onshapeApiRequest (fun _ => .ok (.num 5))
        { ok := true, status := 200, statusText := "OK", body := "" } =
      .ok (.obj []) ∧
    onshapeApiRequest (fun _ => .ok (.num 5))
        { ok := true, status := 200, statusText := "OK", body := "5" } =
      .ok (.num 5) := by
  refine ⟨?_, ?_, ?_⟩
  · exact (onshapeApiRequest_spec _ _).1 rfl
  · exact (onshapeApiRequest_spec _ _).2.1 rfl rfl
  · exact (onshapeApiRequest_spec _ _).2.2 rfl (by decide)

/-- C9: the helper operations getDefaultWorkspace, findPartStudioByName and
findAssemblyByName never propagate a failure: whenever their underlying API
request fails (for any error whatsoever), they return `undefined` (`none`)
rather than raising. -/
theorem helpers_never_propagate (e : Err) (name : String) :
    getDefaultWorkspace (.error e) = none ∧
    findPartStudioByName (.error e) name = none ∧
    findAssemblyByName (.error e) name = none := by
  exact ⟨rfl, rfl, rfl⟩

/-
Resource Locator.  The four URI templates of server.ts lines 8-12:
  onshape://document/{documentId}
  onshape://document/{documentId}/{wvm}/{wvmid}
  onshape://document/{documentId}/{wvm}/{wvmid}/element/{elementId}
  onshape://document/{documentId}/{wvm}/{wvmid}/element/{elementId}/part/{partId}
Strings are modelled as `List Char` in this component so that splitting on
the `/` separator is directly reasoned about.
-/

/-- The state selector: which temporal snapshot of a document is addressed.
Its serialized token is exactly one of "w"/"v"/"m" (the `{wvm}` template
slot), each carrying its own identifier (the `{wvmid}` slot). -/
inductive StateSelector where
  | workspace (id : List Char)
  | version (id : List Char)
  | microversion (id : List Char)
deriving DecidableEq

/-- The serialized one-letter token of a state selector. -/
def StateSelector.token : StateSelector → List Char
  | .workspace _ => ['w']
  | .version _ => ['v']
  | .microversion _ => ['m']

/-- The identifier carried by a state selector. -/
def StateSelector.stateId : StateSelector → List Char
  | .workspace i => i
  | .version i => i
  | .microversion i => i

/-- A structured resource address, one constructor per nested URI template;
the nesting invariant (partId requires elementId requires a state selector)
is built into the constructors. -/
inductive Address where
  | doc (documentId : List Char)
  | docState (documentId : List Char) (sel : StateSelector)
  | element (documentId : List Char) (sel : StateSelector) (elementId : List Char)
  | part (documentId : List Char) (sel : StateSelector) (elementId : List Char)
      (partId : List Char)
deriving DecidableEq

def SCHEME_SEG : List Char := "onshape:".toList

def DOCUMENT_SEG : List Char := "document".toList

def ELEMENT_SEG : List Char := "element".toList

def PART_SEG : List Char := "part".toList

/-- The `/`-separated segment sequence of the URI template matching an
address, with the address's components in the template slots; e.g. the part
template instantiates to
`["onshape:", "", "document", documentId, token, stateId, "element",
elementId, "part", partId]`. -/
def uriSegments : Address → List (List Char)
  | .doc d => [SCHEME_SEG, [], DOCUMENT_SEG, d]
  | .docState d sel => [SCHEME_SEG, [], DOCUMENT_SEG, d, sel.token, sel.stateId]
  | .element d sel e =>
      [SCHEME_SEG, [], DOCUMENT_SEG, d, sel.token, sel.stateId, ELEMENT_SEG, e]
  | .part d sel e p =>
      [SCHEME_SEG, [], DOCUMENT_SEG, d, sel.token, sel.stateId, ELEMENT_SEG, e,
        PART_SEG, p]

/-- Builds the URI string of an address by instantiating the matching
template (the `.replace("{documentId}", ...)` chains in server.ts, e.g.
lines 386-395): the segments joined with `/`. -/
def buildUri (a : Address) : List Char := List.intercalate ['/'] (uriSegments a)

/-- The built URI is literally the instantiated template text. -/
theorem buildUri_matches_templates :
    buildUri (.doc "D1".toList) = "onshape://document/D1".toList ∧
    buildUri (.docState "D1".toList (.workspace "W1".toList)) =
      "onshape://document/D1/w/W1".toList ∧
    buildUri (.element "D1".toList (.version "V1".toList) "E1".toList) =
      "onshape://document/D1/v/V1/element/E1".toList ∧
    buildUri (.part "D1".toList (.microversion "M1".toList) "E1".toList "P1".toList) =
      "onshape://document/D1/m/M1/element/E1/part/P1".toList := by
  refine ⟨?_, ?_, ?_, ?_⟩ <;> decide

/-- Recognizes the serialized `{wvm}` token; any token other than
`w`/`v`/`m` is rejected. -/
def parseSel (tok sid : List Char) : Option StateSelector :=
  if tok = ['w'] then some (.workspace sid)
  else if tok = ['v'] then some (.version sid)
  else if tok = ['m'] then some (.microversion sid)
  else none

/-- Matches a segment sequence against the four nested templates. -/
def parseSegs : List (List Char) → Option Address
  | [o, e0, dw, d] =>
      if o = SCHEME_SEG ∧ e0 = [] ∧ dw = DOCUMENT_SEG then some (.doc d) else none
  | [o, e0, dw, d, t, sid] =>
      if o = SCHEME_SEG ∧ e0 = [] ∧ dw = DOCUMENT_SEG then
        (parseSel t sid).map (fun sel => .docState d sel)
      else none
  | [o, e0, dw, d, t, sid, ew, e] =>
      if o = SCHEME_SEG ∧ e0 = [] ∧ dw = DOCUMENT_SEG ∧ ew = ELEMENT_SEG then
        (parseSel t sid).map (fun sel => .element d sel e)
      else none
  | [o, e0, dw, d, t, sid, ew, e, pw, p] =>
      if o = SCHEME_SEG ∧ e0 = [] ∧ dw = DOCUMENT_SEG ∧ ew = ELEMENT_SEG ∧
          pw = PART_SEG then
        (parseSel t sid).map (fun sel => .part d sel e p)
      else none
  | _ => none

/-- Modelled from the spec: the URI-template matcher that turns a resource
URI back into path parameters lives in the MCP SDK (`ResourceTemplate`), not
under src; per the spec the Resource Locator parses a URI string matching one
of the four nested templates into an `Address` and rejects malformed input
(missing required component, or an unrecognized state token other than
`w`/`v`/`m`). -/
def parseUri (u : List Char) : Option Address :=
  parseSegs (u.splitOn '/')

/-- A valid URI component: nonempty and alphanumeric (Onshape identifiers),
in particular free of the `/` separator and of URL metacharacters. -/
def validSeg (s : List Char) : Bool := !s.isEmpty && s.all Char.isAlphanum

/-- A valid address: every identifier it carries is a valid component. -/
def Address.valid : Address → Bool
  | .doc d => validSeg d
  | .docState d sel => validSeg d && validSeg sel.stateId
  | .element d sel e => validSeg d && validSeg sel.stateId && validSeg e
  | .part d sel e p =>
      validSeg d && validSeg sel.stateId && validSeg e && validSeg p

theorem validSeg_no_slash {s : List Char} (h : validSeg s = true) : '/' ∉ s := by
  intro hm
  have hall : s.all Char.isAlphanum = true := by
    have h2 := h
    simp only [validSeg, Bool.and_eq_true] at h2
    exact h2.2
  have := List.all_eq_true.mp hall _ hm
  exact absurd this (by decide)

theorem parseSegs_uriSegments (a : Address) : parseSegs (uriSegments a) = some a := by
  cases a with
  | doc d => rfl
  | docState d sel => cases sel <;> rfl
  | element d sel e => cases sel <;> rfl
  | part d sel e p => cases sel <;> rfl

/-- C6: for every valid address of each of the four shapes, parsing the URI
string built from it yields the same address back: parse(build(a)) = a. -/
theorem parse_build_roundtrip (a : Address) (h : a.valid = true) :
    parseUri (buildUri a) = some a := by
  have hsplit : (buildUri a).splitOn '/' = uriSegments a := by
    apply List.splitOn_intercalate
    · intro l hl
      cases a <;> simp only [uriSegments, List.mem_cons, List.not_mem_nil,
        or_false] at hl <;>
        simp only [Address.valid, Bool.and_eq_true] at h
      case doc d =>
        rcases hl with rfl | rfl | rfl | rfl
        · decide
        · decide
        · decide
        · exact validSeg_no_slash h
      case docState d sel =>
        rcases hl with rfl | rfl | rfl | rfl | rfl | rfl
        · decide
        · decide
        · decide
        · exact validSeg_no_slash h.1
        · cases sel <;> simp [StateSelector.token]
        · exact validSeg_no_slash h.2
      case element d sel e =>
        rcases hl with rfl | rfl | rfl | rfl | rfl | rfl | rfl | rfl
        · decide
        · decide
        · decide
        · exact validSeg_no_slash h.1.1
        · cases sel <;> simp [StateSelector.token]
        · exact validSeg_no_slash h.1.2
        · decide
        · exact validSeg_no_slash h.2
      case part d sel e p =>
        rcases hl with rfl | rfl | rfl | rfl | rfl | rfl | rfl | rfl | rfl | rfl
        · decide
        · decide
        · decide
        · exact validSeg_no_slash h.1.1.1
        · cases sel <;> simp [StateSelector.token]
        · exact validSeg_no_slash h.1.1.2
        · decide
        · exact validSeg_no_slash h.1.2
        · decide
        · exact validSeg_no_slash h.2
    · cases a <;> simp [uriSegments]
  unfold parseUri
  rw [hsplit]
  exact parseSegs_uriSegments a

/-- Witness for C6: a concrete valid address of the deepest shape
roundtrips (and the shallower shapes roundtrip by the same theorem). -/
theorem parse_build_roundtrip_witness :
    (Address.part "D1".toList (.workspace "W1".toList) "E1".toList
        "P1".toList).valid = true ∧
    parseUri (buildUri (.part "D1".toList (.workspace "W1".toList) "E1".toList
        "P1".toList)) =
      some (.part "D1".toList (.workspace "W1".toList) "E1".toList "P1".toList) ∧
    parseUri (buildUri (.doc "D1".toList)) = some (.doc "D1".toList) := by
  refine ⟨by decide, ?_, ?_⟩
  · exact parse_build_roundtrip _ (by decide)
  · exact parse_build_roundtrip _ (by decide)

/-
Version-stamped mutation protocol: add_part_studio_feature,
update_part_studio_feature, delete_part_studio_feature (server.ts lines
594-785).  Each handler is a pure function of its parameters and of a
`Backend` oracle giving the results of the at-most-two requests it can
issue; the outbound requests are returned as an explicit `Call` trace.
-/

/-- JavaScript truthiness of a possibly-missing string field, as tested by
`!x`: missing (`undefined`) and the empty string are falsy. -/
def truthy : Option String → Bool
  | none => false
  | some s => !(s == "")

/-- JS template-literal rendering of a possibly-missing string field:
`undefined` prints as "undefined". -/
def renderOptStr : Option String → String
  | none => "undefined"
  | some s => s

/-- JS `x || d` for a possibly-missing string: a falsy value (missing or
empty) picks the default. -/
def jsOrDefault : Option String → String → String
  | none, d => d
  | some s, d => if s = "" then d else s

/-- The fields of the feature-list read response (`currentFeatures`)
consulted by the mutation handlers; each may be missing. -/
structure FeatureListReadResponse where
  serializationVersion : Option String
  libraryVersion : Option String
  sourceMicroversion : Option String
deriving DecidableEq

/-- `response.featureState` of a feature write response. -/
structure FeatureState where
  featureStatus : String
  errorMessage : Option String
deriving DecidableEq

/-- One entry of `response.notices`. -/
structure Notice where
  level : String
  message : String
deriving DecidableEq

/-- `response.feature` of an add-feature write response. -/
structure FeatureInfo where
  name : Option String
  featureId : Option String
deriving DecidableEq

/-- The fields of the feature write/delete response consulted by the
handlers.  `microversionSkew` is the backend's version-skew indicator
(truthiness of `response.microversionSkew`; missing means false). -/
structure FeatureWriteResponse where
  sourceMicroversion : Option String
  feature : Option FeatureInfo
  featureState : Option FeatureState
  notices : Option (List Notice)
  microversionSkew : Bool
deriving DecidableEq

/-- The `featureDefinitionCall` write payload: the caller's feature
definition plus the three version stamps. -/
structure WritePayload where
  feature : Json
  serializationVersion : Option String
  sourceMicroversion : Option String
  libraryVersion : Option String

/-- One outbound `onshapeApiRequest` call recorded by a handler. -/
inductive Call where
  | get (path : String) (query : List (String × String))
  | postFeatures (path : String) (payload : WritePayload)
  | del (path : String)

/-- A write request (anything other than a GET). -/
def isWriteCall : Call → Bool
  | .get _ _ => false
  | .postFeatures _ _ => true
  | .del _ => true

/-- Backend behavior visible to one mutation-handler invocation: the result
of the feature-list read, the result of the feature write as a function of
the submitted payload, and the result of the feature delete. -/
structure Backend where
  readFeatures : Except Err (Option FeatureListReadResponse)
  writeFeatures : WritePayload → Except Err FeatureWriteResponse
  deleteFeature : Except Err FeatureWriteResponse

/-- The in-band response envelope every handler returns: one text content
block assembled by appending `segments` (the block's text is the
concatenation of the segments, in order), plus the `isError` flag (absent on
success, modelled as `false`). -/
structure Envelope where
  segments : List String
  isError : Bool
deriving DecidableEq

/-- The try/catch boundary wrapping every handler body: a thrown failure
becomes the uniform envelope with one text block and `isError: true`. -/
def handleWith (catchText : Err → String) (body : Except Err Envelope) : Envelope :=
  match body with
  | .ok env => env
  | .error e => { segments := [catchText e], isError := true }

/-- The JavaScript string primitives the handlers pass values through:
JSON.stringify of the payload and of the raw response (embedded verbatim in
the add handler's output), and the pretty JSON.stringify of the
possibly-unassigned payload variable used in the add handler's catch text. -/
structure JsPrims where
  stringifyPayload : WritePayload → String
  stringifyResp : FeatureWriteResponse → String
  stringifyPayloadPretty : Option WritePayload → String

structure AddFeatureParams where
  documentId : String
  workspaceId : String
  elementId : String
  feature : Json

structure UpdateFeatureParams where
  documentId : String
  workspaceId : String
  elementId : String
  featureId : String
  feature : Json

structure DeleteFeatureParams where
  documentId : String
  workspaceId : String
  elementId : String
  featureId : String

/-- `/partstudios/d/{doc}/w/{ws}/e/{elem}/features`. -/
def featuresPath (documentId workspaceId elementId : String) : String :=
  "/partstudios/d/" ++ documentId ++ "/w/" ++ workspaceId ++ "/e/" ++
    elementId ++ "/features"

/-- `/partstudios/d/{doc}/w/{ws}/e/{elem}/features/featureid/{featureId}`
(encodeURIComponent is the identity on the alphanumeric feature ids and is
elided). -/
def featureByIdPath (documentId workspaceId elementId featureId : String) : String :=
  featuresPath documentId workspaceId elementId ++ "/featureid/" ++ featureId

def addPrecondMsg : String :=
  "Failed to fetch necessary Part Studio metadata for adding feature."

def updatePrecondMsg : String :=
  "Failed to fetch necessary Part Studio metadata for updating feature."

/-- server.ts lines 626-631 and 703-708: the write payload is the caller's
feature plus the three stamps taken from `currentFeatures`, each unmodified. -/
def mkPayload (feature : Json) (cf : FeatureListReadResponse) : WritePayload :=
  { feature := feature
    serializationVersion := cf.serializationVersion
    sourceMicroversion := cf.sourceMicroversion
    libraryVersion := cf.libraryVersion }

/-- `response.featureState && response.featureState.featureStatus === 'ERROR'`. -/
def featureStateIsError (resp : FeatureWriteResponse) : Bool :=
  match resp.featureState with
  | some fs => fs.featureStatus == "ERROR"
  | none => false

/-- `response.notices && response.notices.length > 0`. -/
def noticesNonempty (resp : FeatureWriteResponse) : Bool :=
  match resp.notices with
  | some ns => !ns.isEmpty
  | none => false

/-- The `- [level] message` lines printed for FeatureScript notices. -/
def noticeLines (ns : List Notice) : List String :=
  ns.map (fun n => "- [" ++ n.level ++ "] " ++ n.message ++ "\n")

/-- The `Error Message: ...` line appended under a feature error state when
`response.featureState.errorMessage` is truthy. -/
def errMsgSeg (resp : FeatureWriteResponse) : List String :=
  match resp.featureState with
  | some fs =>
      if truthy fs.errorMessage then
        ["Error Message: " ++ renderOptStr fs.errorMessage ++ "\n"]
      else []
  | none => []

/-- Success-path output of add_part_studio_feature (server.ts lines 641-667):
header with the raw payload and response JSON, optional feature name/id,
the new microversion line, then either the feature-error warning (with
optional error message) or the notices block. -/
def addSuccessEnvelope (js : JsPrims) (payload : WritePayload)
    (resp : FeatureWriteResponse) : Envelope :=
  { segments :=
      ["Feature added successfully.\n Input: \n" ++ js.stringifyPayload payload ++
        "\n Output: \n" ++ js.stringifyResp resp]
      ++ (match resp.feature with
          | some fi =>
              (if truthy fi.name then
                [" Name: \"" ++ renderOptStr fi.name ++ "\""] else [])
              ++ (if truthy fi.featureId then
                    [" (ID: " ++ renderOptStr fi.featureId ++ ")\n"] else ["\n"])
          | none => ["\n"])
      ++ ["New Microversion: " ++ renderOptStr resp.sourceMicroversion ++ "\n"]
      ++ (if featureStateIsError resp then
            ["Warning: The added feature resulted in an error state.\n"] ++
              errMsgSeg resp
          else if noticesNonempty resp then
            ["FeatureScript Notices:\n"] ++ noticeLines (resp.notices.getD [])
          else [])
    isError := false }

/-- Success-path output of update_part_studio_feature (server.ts lines
719-734). -/
def updateSuccessEnvelope (p : UpdateFeatureParams)
    (resp : FeatureWriteResponse) : Envelope :=
  { segments :=
      ["Feature \"" ++ p.featureId ++ "\" updated successfully.\n",
        "New Microversion: " ++ renderOptStr resp.sourceMicroversion ++ "\n"]
      ++ (if featureStateIsError resp then
            ["Warning: The updated feature resulted in an error state.\n"] ++
              errMsgSeg resp
          else if noticesNonempty resp then
            ["FeatureScript Notices:\n"] ++ noticeLines (resp.notices.getD [])
          else [])
    isError := false }

/-- The skew warning line of the delete handler (server.ts lines 767-769). -/
def skewWarningText : String :=
  "Warning: Microversion skew detected during deletion.\n"

/-- Success-path output of delete_part_studio_feature (server.ts lines
764-778): the skew warning when `response.microversionSkew` is truthy, then
the notices block when present. -/
def deleteSuccessEnvelope (p : DeleteFeatureParams)
    (resp : FeatureWriteResponse) : Envelope :=
  { segments :=
      ["Feature \"" ++ p.featureId ++ "\" deleted successfully.\n"]
      ++ (if resp.microversionSkew then [skewWarningText] else [])
      ++ (if noticesNonempty resp then
            ["Notices during deletion:\n"] ++ noticeLines (resp.notices.getD [])
          else [])
    isError := false }

/-- Body of add_part_studio_feature (server.ts lines 608-667): read the
current feature list, throw the precondition error if the response or any of
the three stamps is falsy, otherwise build the payload and submit the write.
Returns the thrown-or-returned result plus the trace of issued requests. -/
def add_feature_body (js : JsPrims) (be : Backend) (p : AddFeatureParams) :
    Except Err Envelope × List Call :=
  let path := featuresPath p.documentId p.workspaceId p.elementId
  let readCall := Call.get path []
  match be.readFeatures with
  | .error e => (.error e, [readCall])
  | .ok none => (.error (.preconditionError addPrecondMsg), [readCall])
  | .ok (some cf) =>
      if truthy cf.serializationVersion && truthy cf.libraryVersion &&
          truthy cf.sourceMicroversion then
        let payload := mkPayload p.feature cf
        match be.writeFeatures payload with
        | .error e => (.error e, [readCall, Call.postFeatures path payload])
        | .ok resp =>
            (.ok (addSuccessEnvelope js payload resp),
              [readCall, Call.postFeatures path payload])
      else (.error (.preconditionError addPrecondMsg), [readCall])

/-- The payload variable observable in the add handler's catch block: some
payload exactly when execution got past the precondition check. -/
def addAssignedPayload (be : Backend) (p : AddFeatureParams) : Option WritePayload :=
  match be.readFeatures with
  | .ok (some cf) =>
      if truthy cf.serializationVersion && truthy cf.libraryVersion &&
          truthy cf.sourceMicroversion then some (mkPayload p.feature cf)
      else none
  | _ => none

/-- The add handler's catch text (server.ts line 671). -/
def addCatchText (js : JsPrims) (be : Backend) (p : AddFeatureParams)
    (e : Err) : String :=
  "Error adding feature: " ++ e.message ++ "  + " ++
    js.stringifyPayloadPretty (addAssignedPayload be p)

/-- The registered add_part_studio_feature handler: its body wrapped in the
try/catch boundary. -/
def add_part_studio_feature (js : JsPrims) (be : Backend)
    (p : AddFeatureParams) : Envelope × List Call :=
  (handleWith (addCatchText js be p) (add_feature_body js be p).1,
    (add_feature_body js be p).2)

/-- Body of update_part_studio_feature (server.ts lines 688-734): same
read/precondition/write sequence as add, against the feature-id path. -/
def update_feature_body (be : Backend) (p : UpdateFeatureParams) :
    Except Err Envelope × List Call :=
  let readCall := Call.get (featuresPath p.documentId p.workspaceId p.elementId) []
  let writePath := featureByIdPath p.documentId p.workspaceId p.elementId p.featureId
  match be.readFeatures with
  | .error e => (.error e, [readCall])
  | .ok none => (.error (.preconditionError updatePrecondMsg), [readCall])
  | .ok (some cf) =>
      if truthy cf.serializationVersion && truthy cf.libraryVersion &&
          truthy cf.sourceMicroversion then
        let payload := mkPayload p.feature cf
        match be.writeFeatures payload with
        | .error e => (.error e, [readCall, Call.postFeatures writePath payload])
        | .ok resp =>
            (.ok (updateSuccessEnvelope p resp),
              [readCall, Call.postFeatures writePath payload])
      else (.error (.preconditionError updatePrecondMsg), [readCall])

/-- The update handler's catch text (server.ts line 738). -/
def updateCatchText (p : UpdateFeatureParams) (e : Err) : String :=
  "Error updating feature " ++ p.featureId ++ ": " ++ e.message

/-- The registered update_part_studio_feature handler. -/
def update_part_studio_feature (_js : JsPrims) (be : Backend)
    (p : UpdateFeatureParams) : Envelope × List Call :=
  (handleWith (updateCatchText p) (update_feature_body be p).1,
    (update_feature_body be p).2)

/-- Body of delete_part_studio_feature (server.ts lines 754-778): one DELETE
request, no preceding read. -/
def delete_feature_body (be : Backend) (p : DeleteFeatureParams) :
    Except Err Envelope × List Call :=
  let delCall := Call.del
    (featureByIdPath p.documentId p.workspaceId p.elementId p.featureId)
  match be.deleteFeature with
  | .error e => (.error e, [delCall])
  | .ok resp => (.ok (deleteSuccessEnvelope p resp), [delCall])

/-- The delete handler's catch text (server.ts line 782). -/
def deleteCatchText (p : DeleteFeatureParams) (e : Err) : String :=
  "Error deleting feature " ++ p.featureId ++ ": " ++ e.message

/-- The registered delete_part_studio_feature handler. -/
def delete_part_studio_feature (_js : JsPrims) (be : Backend)
    (p : DeleteFeatureParams) : Envelope × List Call :=
  (handleWith (deleteCatchText p) (delete_feature_body be p).1,
    (delete_feature_body be p).2)

/-
Dispatch boundary for the mutation tools (C4), and the list_documents /
list_elements tools and the document resource (C7, C10).
-/

/-- The mutation tool schemas (server.ts lines 595-603, 677-683, 744-749)
declare the target state exclusively as `workspaceId`: a workspace is the
only admissible target of a feature-list mutation. -/
def mutationSchemaAccepts : StateSelector → Bool
  | .workspace _ => true
  | .version _ => false
  | .microversion _ => false

/-- The in-band text of the InvalidStateError produced when a mutation
request names an immutable state. -/
def invalidStateText : String :=
  "InvalidStateError: feature-list mutations require a workspace target"

/-- Modelled from the spec: input validation at the dispatch boundary is
performed by the MCP SDK against the declared zod schema (not under src).
Because the add schema admits only a `workspaceId` target, a mutation
request whose state selector is a version or microversion fails validation
in-band (`InvalidStateError`) before the handler runs, with no network
call. -/
def dispatch_add_feature (js : JsPrims) (be : Backend) (documentId : String)
    (target : StateSelector) (elementId : String) (feature : Json) :
    Envelope × List Call :=
  match target with
  | .workspace wid =>
      add_part_studio_feature js be
        ⟨documentId, String.mk wid, elementId, feature⟩
  | .version _ => ({ segments := [invalidStateText], isError := true }, [])
  | .microversion _ => ({ segments := [invalidStateText], isError := true }, [])

/-- Modelled from the spec: the same schema boundary for
update_part_studio_feature. -/
def dispatch_update_feature (js : JsPrims) (be : Backend) (documentId : String)
    (target : StateSelector) (elementId featureId : String) (feature : Json) :
    Envelope × List Call :=
  match target with
  | .workspace wid =>
      update_part_studio_feature js be
        ⟨documentId, String.mk wid, elementId, featureId, feature⟩
  | .version _ => ({ segments := [invalidStateText], isError := true }, [])
  | .microversion _ => ({ segments := [invalidStateText], isError := true }, [])

/-- One item of the list_documents response (`documents.items`). -/
structure DocListItem where
  id : Option String
  name : Option String

/-- The list_documents response: `items` may be missing. -/
structure DocumentsResponse where
  items : Option (List DocListItem)

/-- The per-document line of list_documents output; the resource URI is the
document template instantiated with the item's id (`new URL(...).href` is
the identity on these URIs). -/
def docLine (d : DocListItem) : String :=
  "- \"" ++ renderOptStr d.name ++ "\" (ID: " ++ renderOptStr d.id ++
    ") - @document(onshape://document/" ++ renderOptStr d.id ++ ")\n"

/-- The list_documents tool (server.ts lines 335-357): one GET, output lines
per owned document, any failure converted in-band. -/
def list_documents (requestResult : Except Err DocumentsResponse) :
    Envelope × List Call :=
  (handleWith (fun e => "Error listing documents: " ++ e.message)
    (match requestResult with
     | .error e => .error e
     | .ok docs =>
         .ok { segments :=
                 "Recent Documents (owned by you):\n" ::
                   (match docs.items with
                    | some items =>
                        if items.isEmpty then ["No documents found.\n"]
                        else items.map docLine
                    | none => ["No documents found.\n"])
               isError := false }),
    [Call.get "/documents?filter=0&limit=20" []])

/-- The `{wvm}` enum of the tool schemas: z.enum(["w", "v", "m"]). -/
inductive Wvm where
  | w
  | v
  | m
deriving DecidableEq

def Wvm.toStr : Wvm → String
  | .w => "w"
  | .v => "v"
  | .m => "m"

/-- `params.wvm.toUpperCase()`. -/
def Wvm.upper : Wvm → String
  | .w => "W"
  | .v => "V"
  | .m => "M"

/-- The elementType enum of the list_elements schema (server.ts line 364). -/
inductive ElementTypeFilter where
  | partstudio
  | assembly
  | drawing
  | featurestudio
  | blob
  | application
  | table
  | billofmaterials
  | variablestudio
  | publicationitem
deriving DecidableEq

def ElementTypeFilter.toStr : ElementTypeFilter → String
  | .partstudio => "PARTSTUDIO"
  | .assembly => "ASSEMBLY"
  | .drawing => "DRAWING"
  | .featurestudio => "FEATURESTUDIO"
  | .blob => "BLOB"
  | .application => "APPLICATION"
  | .table => "TABLE"
  | .billofmaterials => "BILLOFMATERIALS"
  | .variablestudio => "VARIABLESTUDIO"
  | .publicationitem => "PUBLICATIONITEM"

structure ListElementsParams where
  documentId : String
  wvm : Wvm
  wvmid : String
  elementType : Option ElementTypeFilter

/-- `params.elementType || 'PARTSTUDIO,ASSEMBLY'` (server.ts line 375): the
elementType query value defaults to the Part Studio and Assembly filter when
the optional argument is omitted. -/
def elementTypeQueryValue (elementType : Option ElementTypeFilter) : String :=
  jsOrDefault (elementType.map ElementTypeFilter.toStr) "PARTSTUDIO,ASSEMBLY"

/-- One item of the list_elements response. -/
structure ElementItem where
  id : Option String
  name : Option String
  prettyType : Option String

/-- The elements endpoint path `/documents/d/{doc}/{wvm}/{wvmid}/elements`. -/
def elementsPath (p : ListElementsParams) : String :=
  "/documents/d/" ++ p.documentId ++ "/" ++ p.wvm.toStr ++ "/" ++ p.wvmid ++
    "/elements"

/-- The per-element line of list_elements output, carrying the element
resource URI built from the element template. -/
def elementLine (p : ListElementsParams) (e : ElementItem) : String :=
  "- \"" ++ renderOptStr e.name ++ "\" (ID: " ++ renderOptStr e.id ++
    ", Type: " ++ renderOptStr e.prettyType ++
    ") - @element(onshape://document/" ++ p.documentId ++ "/" ++
    p.wvm.toStr ++ "/" ++ p.wvmid ++ "/element/" ++ renderOptStr e.id ++ ")\n"

/-- The list_elements tool (server.ts lines 360-407): one GET carrying the
elementType query, output lines per element, any failure converted
in-band.  A null response (`elements` falsy) prints the no-elements line. -/
def list_elements (requestResult : Except Err (Option (List ElementItem)))
    (p : ListElementsParams) : Envelope × List Call :=
  (handleWith (fun e => "Error listing elements: " ++ e.message)
    (match requestResult with
     | .error e => .error e
     | .ok elements =>
         .ok { segments :=
                 ("Elements in document \"" ++ p.documentId ++ "\" (" ++
                   p.wvm.upper ++ ": " ++ p.wvmid ++ ")" ++
                   (match p.elementType with
                    | some t => " (Type: " ++ t.toStr ++ ")"
                    | none => "") ++ ":\n") ::
                   (match elements with
                    | some items =>
                        if items.isEmpty then
                          ["No elements found matching the criteria in this state.\n"]
                        else items.map (elementLine p)
                    | none =>
                        ["No elements found matching the criteria in this state.\n"])
               isError := false }),
    [Call.get (elementsPath p) [("elementType", elementTypeQueryValue p.elementType)]])

/-- The fields of the document-info response read by the document resource;
`ownerName` collapses `docInfo.owner?.name`, `defaultWorkspaceId` and
`defaultWorkspaceName` collapse `docInfo.defaultWorkspace?.id/.name`. -/
structure DocumentInfo where
  name : Option String
  id : Option String
  description : Option String
  ownerName : Option String
  modifiedAt : Option String
  createdAt : Option String
  defaultWorkspaceId : Option String
  defaultWorkspaceName : Option String

/-- The document resource handler (server.ts lines 99-140): one GET on
`/documents/{documentId}`, a plain-text summary, any failure converted into
the in-band error contents with `isError: true`. -/
def document_resource (documentId : String)
    (requestResult : Except Err DocumentInfo) : Envelope × List Call :=
  (handleWith (fun e => "Error reading document: " ++ e.message)
    (match requestResult with
     | .error e => .error e
     | .ok info =>
         .ok { segments :=
                 ["Onshape Document: " ++ renderOptStr info.name ++ "\n",
                   "ID: " ++ renderOptStr info.id ++ "\n",
                   "Description: " ++ jsOrDefault info.description "N/A" ++ "\n",
                   "Owner: " ++ jsOrDefault info.ownerName "N/A" ++ "\n",
                   "Modified At: " ++ renderOptStr info.modifiedAt ++ "\n",
                   "Created At: " ++ renderOptStr info.createdAt ++ "\n"]
                 ++ (if truthy info.defaultWorkspaceId then
                       ["Default Workspace: " ++
                         renderOptStr info.defaultWorkspaceName ++ " (ID: " ++
                         renderOptStr info.defaultWorkspaceId ++
                         ") - @wvm(onshape://document/" ++ renderOptStr info.id ++
                         "/w/" ++ renderOptStr info.defaultWorkspaceId ++ ")\n"]
                     else [])
               isError := false }),
    [Call.get ("/documents/" ++ documentId) []])

/-
Concrete fixtures used by the witnesses and the counterexample.
-/

def jsFix : JsPrims :=
  { stringifyPayload := fun _ => "P"
    stringifyResp := fun _ => "R"
    stringifyPayloadPretty := fun _ => "PP" }

def cfGood : FeatureListReadResponse :=
  { serializationVersion := some "sv1", libraryVersion := some "lv1",
    sourceMicroversion := some "mv1" }

def cfNoLib : FeatureListReadResponse :=
  { serializationVersion := some "sv1", libraryVersion := none,
    sourceMicroversion := some "mv1" }

def respErrState : FeatureWriteResponse :=
  { sourceMicroversion := some "mv2", feature := none,
    featureState := some { featureStatus := "ERROR", errorMessage := some "boom" },
    notices := none, microversionSkew := false }

def respSkew : FeatureWriteResponse :=
  { sourceMicroversion := some "mv2", feature := none, featureState := none,
    notices := none, microversionSkew := true }

def beNoLib : Backend :=
  { readFeatures := .ok (some cfNoLib), writeFeatures := fun _ => .ok respErrState,
    deleteFeature := .ok respErrState }

def beErrState : Backend :=
  { readFeatures := .ok (some cfGood), writeFeatures := fun _ => .ok respErrState,
    deleteFeature := .ok respErrState }

def beSkew : Backend :=
  { readFeatures := .ok (some cfGood), writeFeatures := fun _ => .ok respSkew,
    deleteFeature := .ok respSkew }

def paFix : AddFeatureParams :=
  { documentId := "D1", workspaceId := "W1", elementId := "E1",
    feature := Json.null }

def puFix : UpdateFeatureParams :=
  { documentId := "D1", workspaceId := "W1", elementId := "E1",
    featureId := "F1", feature := Json.null }

def pdFix : DeleteFeatureParams :=
  { documentId := "D1", workspaceId := "W1", elementId := "E1",
    featureId := "F1" }

def errFix : Err := .apiError 500 "Internal Server Error" "oops"

/-- C2: for both feature-list mutations, if the snapshot read immediately
before the write is missing any of serializationVersion, libraryVersion or
sourceMicroversion, the body throws the PreconditionError (converted in-band
by the boundary, so the operation fails) and the write endpoint is never
invoked: the request trace contains zero write requests. -/
theorem precondition_blocks_write (js : JsPrims) (be : Backend)
    (pa : AddFeatureParams) (pu : UpdateFeatureParams)
    (cf : FeatureListReadResponse)
    (hread : be.readFeatures = .ok (some cf))
    (hmiss : truthy cf.serializationVersion = false ∨
      truthy cf.libraryVersion = false ∨ truthy cf.sourceMicroversion = false) :
    (add_feature_body js be pa).1 = .error (.preconditionError addPrecondMsg) ∧
    (add_part_studio_feature js be pa).1.isError = true ∧
    (add_part_studio_feature js be pa).2.filter isWriteCall = [] ∧
    (update_feature_body be pu).1 = .error (.preconditionError updatePrecondMsg) ∧
    (update_part_studio_feature js be pu).1.isError = true ∧
    (update_part_studio_feature js be pu).2.filter isWriteCall = [] := by
  have hcond : (truthy cf.serializationVersion && truthy cf.libraryVersion &&
      truthy cf.sourceMicroversion) = false := by
    rcases hmiss with h | h | h <;> simp [h]
  refine ⟨?_, ?_, ?_, ?_, ?_, ?_⟩ <;>
    simp [add_feature_body, update_feature_body, add_part_studio_feature,
      update_part_studio_feature, handleWith, hread, hcond, isWriteCall]

/-- Witness for C2: a concrete read missing libraryVersion makes the add
mutation fail in-band with zero write requests issued. -/
theorem precondition_blocks_write_witness :
    (add_part_studio_feature jsFix beNoLib paFix).1.isError = true ∧
    (add_part_studio_feature jsFix beNoLib paFix).2.filter isWriteCall = [] ∧
    (add_feature_body jsFix beNoLib paFix).1 =
      .error (.preconditionError addPrecondMsg) := by
  have h := precondition_blocks_write jsFix beNoLib paFix puFix cfNoLib rfl
    (Or.inr (Or.inl rfl))
  exact ⟨h.2.1, h.2.2.1, h.1⟩

/-- C3: for both feature-list mutations, a write response carrying the
feature-evaluation error state (featureState.featureStatus = "ERROR") still
yields an overall success result (isError stays false) carrying the
feature-evaluation warning line, never a failure. -/
theorem feature_error_state_is_success (js : JsPrims) (be : Backend)
    (pa : AddFeatureParams) (pu : UpdateFeatureParams)
    (cf : FeatureListReadResponse) (ra ru : FeatureWriteResponse)
    (hread : be.readFeatures = .ok (some cf))
    (hsv : truthy cf.serializationVersion = true)
    (hlv : truthy cf.libraryVersion = true)
    (hmv : truthy cf.sourceMicroversion = true)
    (hwa : be.writeFeatures (mkPayload pa.feature cf) = .ok ra)
    (hwu : be.writeFeatures (mkPayload pu.feature cf) = .ok ru)
    (hea : featureStateIsError ra = true)
    (heu : featureStateIsError ru = true) :
    (add_part_studio_feature js be pa).1.isError = false ∧
    "Warning: The added feature resulted in an error state.\n" ∈
      (add_part_studio_feature js be pa).1.segments ∧
    (update_part_studio_feature js be pu).1.isError = false ∧
    "Warning: The updated feature resulted in an error state.\n" ∈
      (update_part_studio_feature js be pu).1.segments := by
  refine ⟨?_, ?_, ?_, ?_⟩ <;>
    simp [add_part_studio_feature, update_part_studio_feature, add_feature_body,
      update_feature_body, handleWith, hread, hsv, hlv, hmv, hwa, hwu, hea, heu,
      addSuccessEnvelope, updateSuccessEnvelope]

/-- Witness for C3: a concrete write response in ERROR state yields a
non-error result carrying the warning for both add and update. -/
theorem feature_error_state_is_success_witness :
    (add_part_studio_feature jsFix beErrState paFix).1.isError = false ∧
    "Warning: The added feature resulted in an error state.\n" ∈
      (add_part_studio_feature jsFix beErrState paFix).1.segments ∧
    (update_part_studio_feature jsFix beErrState puFix).1.isError = false := by
  have h := feature_error_state_is_success jsFix beErrState paFix puFix cfGood
    respErrState respErrState rfl rfl rfl rfl rfl rfl rfl rfl
  exact ⟨h.1, h.2.1, h.2.2.1⟩

/-- C5: for both feature-list mutations, the payload of the single write
request submitted to the backend is exactly the caller's feature definition
unmodified together with the three version stamps taken unmodified from the
immediately preceding read, and the trace is the read followed by that
write. -/
theorem write_payload_unmodified (js : JsPrims) (be : Backend)
    (pa : AddFeatureParams) (pu : UpdateFeatureParams)
    (cf : FeatureListReadResponse)
    (hread : be.readFeatures = .ok (some cf))
    (hsv : truthy cf.serializationVersion = true)
    (hlv : truthy cf.libraryVersion = true)
    (hmv : truthy cf.sourceMicroversion = true) :
    (add_feature_body js be pa).2 =
      [Call.get (featuresPath pa.documentId pa.workspaceId pa.elementId) [],
        Call.postFeatures (featuresPath pa.documentId pa.workspaceId pa.elementId)
          { feature := pa.feature
            serializationVersion := cf.serializationVersion
            sourceMicroversion := cf.sourceMicroversion
            libraryVersion := cf.libraryVersion }] ∧
    (update_feature_body be pu).2 =
      [Call.get (featuresPath pu.documentId pu.workspaceId pu.elementId) [],
        Call.postFeatures
          (featureByIdPath pu.documentId pu.workspaceId pu.elementId pu.featureId)
          { feature := pu.feature
            serializationVersion := cf.serializationVersion
            sourceMicroversion := cf.sourceMicroversion
            libraryVersion := cf.libraryVersion }] := by
  constructor
  · cases hw : be.writeFeatures (mkPayload pa.feature cf) <;>
    · simp only [mkPayload] at hw
      simp [add_feature_body, hread, hsv, hlv, hmv, hw, mkPayload]
  · cases hw : be.writeFeatures (mkPayload pu.feature cf) <;>
    · simp only [mkPayload] at hw
      simp [update_feature_body, hread, hsv, hlv, hmv, hw, mkPayload]

/-- Witness for C5: the concrete add trace is the read followed by the write
stamped with the three values of the concrete read. -/
theorem write_payload_unmodified_witness :
    (add_feature_body jsFix beSkew paFix).2 =
      [Call.get (featuresPath "D1" "W1" "E1") [],
        Call.postFeatures (featuresPath "D1" "W1" "E1")
          { feature := Json.null, serializationVersion := some "sv1",
            sourceMicroversion := some "mv1", libraryVersion := some "lv1" }] := by
  exact (write_payload_unmodified jsFix beSkew paFix puFix cfGood rfl rfl rfl
    rfl).1

/-- C4: a mutation request whose target state selector is a version or a
microversion (anything the workspace-only schema rejects) fails in-band with
the InvalidStateError and issues zero network calls, for both the add and
the update mutation. -/
theorem nonworkspace_mutation_rejected (js : JsPrims) (be : Backend)
    (documentId elementId featureId : String) (feature : Json)
    (target : StateSelector)
    (h : mutationSchemaAccepts target = false) :
    dispatch_add_feature js be documentId target elementId feature =
      ({ segments := [invalidStateText], isError := true }, []) ∧
    dispatch_update_feature js be documentId target elementId featureId feature =
      ({ segments := [invalidStateText], isError := true }, []) := by
  cases target with
  | workspace i => simp [mutationSchemaAccepts] at h
  | version i => exact ⟨rfl, rfl⟩
  | microversion i => exact ⟨rfl, rfl⟩

/-- Witness for C4: mutating against a concrete version selector is
rejected in-band with an empty request trace. -/
theorem nonworkspace_mutation_rejected_witness :
    mutationSchemaAccepts (.version "V1".toList) = false ∧
    dispatch_add_feature jsFix beSkew "D1" (.version "V1".toList) "E1"
        Json.null =
      ({ segments := [invalidStateText], isError := true }, []) := by
  exact ⟨rfl, (nonworkspace_mutation_rejected jsFix beSkew "D1" "E1" "F1"
    Json.null (.version "V1".toList) rfl).1⟩

theorem add_writes_at_most_once (js : JsPrims) (be : Backend)
    (pa : AddFeatureParams) :
    ((add_feature_body js be pa).2.filter isWriteCall).length ≤ 1 := by
  unfold add_feature_body
  cases be.readFeatures with
  | error e => simp [isWriteCall]
  | ok o =>
    cases o with
    | none => simp [isWriteCall]
    | some cf =>
      by_cases h : (truthy cf.serializationVersion && truthy cf.libraryVersion &&
          truthy cf.sourceMicroversion) = true
      · cases hw : be.writeFeatures (mkPayload pa.feature cf) <;>
          simp [h, hw, isWriteCall]
      · simp [h, isWriteCall]

theorem update_writes_at_most_once (be : Backend) (pu : UpdateFeatureParams) :
    ((update_feature_body be pu).2.filter isWriteCall).length ≤ 1 := by
  unfold update_feature_body
  cases be.readFeatures with
  | error e => simp [isWriteCall]
  | ok o =>
    cases o with
    | none => simp [isWriteCall]
    | some cf =>
      by_cases h : (truthy cf.serializationVersion && truthy cf.libraryVersion &&
          truthy cf.sourceMicroversion) = true
      · cases hw : be.writeFeatures (mkPayload pu.feature cf) <;>
          simp [h, hw, isWriteCall]
      · simp [h, isWriteCall]

theorem delete_writes_at_most_once (be : Backend) (pd : DeleteFeatureParams) :
    ((delete_feature_body be pd).2.filter isWriteCall).length ≤ 1 := by
  unfold delete_feature_body
  cases be.deleteFeature <;> simp [isWriteCall]

/-- Counterexample to C1 as stated: a concrete update mutation whose write
response carries the version-skew indicator (microversionSkew = true)
returns a result with no skew warning whatsoever — the output is exactly the
update-success line and the new-microversion line, so no SkewWarning is
attached (the word "skew" never even occurs in the output text). -/
theorem skew_warning_claim_counterexample :
    respSkew.microversionSkew = true ∧
    (update_part_studio_feature jsFix beSkew puFix).1 =
      { segments := ["Feature \"F1\" updated successfully.\n",
          "New Microversion: mv2\n"],
        isError := false } ∧
    skewWarningText ∉ (update_part_studio_feature jsFix beSkew puFix).1.segments ∧
    ¬ ("skew".toList <:+:
        (String.join (update_part_studio_feature jsFix beSkew puFix).1.segments).toList) ∧
    ¬ ("Skew".toList <:+:
        (String.join (update_part_studio_feature jsFix beSkew puFix).1.segments).toList) := by
  refine ⟨rfl, by decide, by decide, by decide, by decide⟩

/-- C1 amended: only the delete mutation surfaces the skew indicator — when
its response carries microversionSkew, its (non-failing) result attaches the
skew warning; the add and update mutations do not inspect the indicator at
all (the update output is invariant under it, and both still report the new
source microversion from the response with isError = false); and no
mutation retries: every body issues at most one write request. -/
theorem skew_surfaced_only_by_delete (js : JsPrims) (be : Backend)
    (pa : AddFeatureParams) (pu : UpdateFeatureParams)
    (pd : DeleteFeatureParams) (payload : WritePayload)
    (resp : FeatureWriteResponse) (b : Bool) :
    (be.deleteFeature = .ok resp → resp.microversionSkew = true →
      (delete_part_studio_feature js be pd).1.isError = false ∧
        skewWarningText ∈ (delete_part_studio_feature js be pd).1.segments) ∧
    updateSuccessEnvelope pu { resp with microversionSkew := b } =
      updateSuccessEnvelope pu resp ∧
    ((updateSuccessEnvelope pu resp).isError = false ∧
      ("New Microversion: " ++ renderOptStr resp.sourceMicroversion ++ "\n") ∈
        (updateSuccessEnvelope pu resp).segments) ∧
    ((addSuccessEnvelope js payload resp).isError = false ∧
      ("New Microversion: " ++ renderOptStr resp.sourceMicroversion ++ "\n") ∈
        (addSuccessEnvelope js payload resp).segments) ∧
    ((add_feature_body js be pa).2.filter isWriteCall).length ≤ 1 ∧
    ((update_feature_body be pu).2.filter isWriteCall).length ≤ 1 ∧
    ((delete_feature_body be pd).2.filter isWriteCall).length ≤ 1 := by
  refine ⟨?_, ?_, ⟨rfl, ?_⟩, ⟨rfl, ?_⟩, add_writes_at_most_once js be pa,
    update_writes_at_most_once be pu, delete_writes_at_most_once be pd⟩
  · intro hd hskew
    constructor <;>
      simp [delete_part_studio_feature, delete_feature_body, hd, handleWith,
        deleteSuccessEnvelope, hskew]
  · cases resp
    rfl
  · simp [updateSuccessEnvelope]
  · simp [addSuccessEnvelope]

/-- Witness for the amended C1: the concrete delete whose response carries
microversionSkew succeeds and attaches the skew warning. -/
theorem skew_surfaced_only_by_delete_witness :
    (delete_part_studio_feature jsFix beSkew pdFix).1.isError = false ∧
    skewWarningText ∈ (delete_part_studio_feature jsFix beSkew pdFix).1.segments := by
  exact (skew_surfaced_only_by_delete jsFix beSkew paFix puFix pdFix
    (mkPayload Json.null cfGood) respSkew true).1 rfl rfl

/-- C7: every failure raised during a handler's execution is converted at
the try/catch dispatch boundary into the in-band envelope with a single
text block and isError = true — stated generically for the boundary
(`handleWith`) and instantiated for each embedded tool and resource handler
(add/update/delete feature, list_documents, list_elements, and the document
resource); no error propagates past the boundary, since every handler is
total and returns an envelope. -/
theorem handler_failures_in_band (catchText : Err → String)
    (body : Except Err Envelope) (js : JsPrims) (be : Backend)
    (pa : AddFeatureParams) (pu : UpdateFeatureParams)
    (pd : DeleteFeatureParams) (docsRes : Except Err DocumentsResponse)
    (elemsRes : Except Err (Option (List ElementItem)))
    (lp : ListElementsParams) (documentId : String)
    (docRes : Except Err DocumentInfo) (e : Err) :
    (body = .error e →
      handleWith catchText body =
        { segments := [catchText e], isError := true }) ∧
    ((add_feature_body js be pa).1 = .error e →
      (add_part_studio_feature js be pa).1 =
        { segments := [addCatchText js be pa e], isError := true }) ∧
    ((update_feature_body be pu).1 = .error e →
      (update_part_studio_feature js be pu).1 =
        { segments := [updateCatchText pu e], isError := true }) ∧
    ((delete_feature_body be pd).1 = .error e →
      (delete_part_studio_feature js be pd).1 =
        { segments := [deleteCatchText pd e], isError := true }) ∧
    (docsRes = .error e →
      (list_documents docsRes).1 =
        { segments := ["Error listing documents: " ++ e.message],
          isError := true }) ∧
    (elemsRes = .error e →
      (list_elements elemsRes lp).1 =
        { segments := ["Error listing elements: " ++ e.message],
          isError := true }) ∧
    (docRes = .error e →
      (document_resource documentId docRes).1 =
        { segments := ["Error reading document: " ++ e.message],
          isError := true }) := by
  refine ⟨?_, ?_, ?_, ?_, ?_, ?_, ?_⟩ <;> intro h <;>
    simp [handleWith, add_part_studio_feature, update_part_studio_feature,
      delete_part_studio_feature, list_documents, list_elements,
      document_resource, h]

/-- Witness for C7: a concrete transport failure in list_documents and in
the delete handler is returned in-band. -/
theorem handler_failures_in_band_witness :
    (list_documents (.error errFix)).1 =
      { segments := ["Error listing documents: " ++ errFix.message],
        isError := true } ∧
    (document_resource "D1" (.error errFix)).1 =
      { segments := ["Error reading document: " ++ errFix.message],
        isError := true } := by
  have h := handler_failures_in_band (fun _ => "") (.error errFix) jsFix beSkew
    paFix puFix pdFix (.error errFix) (.error errFix)
    { documentId := "D1", wvm := .w, wvmid := "W1", elementType := none }
    "D1" (.error errFix) errFix
  exact ⟨h.2.2.2.2.1 rfl, h.2.2.2.2.2.2 rfl⟩

/-- C10: the single GET issued by list_elements always carries the
elementType query filter: when the optional elementType argument is
omitted the value is "PARTSTUDIO,ASSEMBLY", and when it is supplied the
value is exactly the supplied enum value. -/
theorem list_elements_elementType_query
    (requestResult : Except Err (Option (List ElementItem)))
    (documentId wvmid : String) (wv : Wvm) (t : ElementTypeFilter) :
    (list_elements requestResult
        { documentId := documentId, wvm := wv, wvmid := wvmid,
          elementType := none }).2 =
      [Call.get (elementsPath
          { documentId := documentId, wvm := wv, wvmid := wvmid,
            elementType := none })
        [("elementType", "PARTSTUDIO,ASSEMBLY")]] ∧
    (list_elements requestResult
        { documentId := documentId, wvm := wv, wvmid := wvmid,
          elementType := some t }).2 =
      [Call.get (elementsPath
          { documentId := documentId, wvm := wv, wvmid := wvmid,
            elementType := some t })
        [("elementType", t.toStr)]] := by
  constructor
  · rfl
  · cases t <;> rfl

end VibeCAD
